import Mathlib

/-!
Verification of the PhysicsFX physics core public contract.

The repository ships the public C header
`src/physics_core/include/physics_core.h`, which declares the game-loop
lifecycle entry points (`wgpu_init`, `wgpu_update`, `wgpu_render`,
`wgpu_resize`, `wgpu_shutdown`) and the simulation controls
(`physics_core_set_gravity`, `physics_core_set_time_scale`,
`physics_core_set_paused`, `physics_core_reset_simulation`,
`physics_core_on_pointer_event`, `physics_core_on_key_event`).  The
implementations behind those declarations are not part of the tree, so all
behavioural definitions below are modelled from the specification
(spec.md sections 3, 4, 6 and 7).  C `float` parameters are modelled as
rationals, machine integers as `Int`, and the platform-opaque surface
handle as `Option Nat` where `none` is the null handle.
-/

namespace PhysicsFX

/-- Modelled from the spec: a physics body (spec section 3, SimulationWorld;
Glossary "Body": a simulated physical object with position/velocity).  The
body type of the implementation is absent from src/, which holds only the
header. -/
structure Body where
  posX : ℚ
  posY : ℚ
  velX : ℚ
  velY : ℚ
deriving DecidableEq

/-- Modelled from the spec: the SimulationWorld of spec section 3 — a
collection of bodies ordered by creation, global parameters
(gravity vector restricted to its y component per the header's
`physics_core_set_gravity(float y)`, time_scale, paused), and an
accumulated-time counter for fixed-step integration.  The implementation is
absent from src/. -/
structure SimulationWorld where
  bodies : List Body
  gravityY : ℚ
  timeScale : ℚ
  paused : Bool
  accumulator : ℚ
deriving DecidableEq

/-- Modelled from the spec: LifecycleState of spec section 3.  The spec's
transient ShuttingDown phase is internal to the atomic `wgpu_shutdown`
call and is not observable between public calls, so the model keeps the
three inter-call states. -/
inductive LifecycleState where
  | Uninitialized
  | Ready
  | Terminated
deriving DecidableEq

/-- Modelled from the spec: RenderDevice of spec section 3, reduced to its
observable presentation-target dimensions.  The implementation is absent
from src/. -/
structure RenderDevice where
  width : Int
  height : Int
deriving DecidableEq

/-- Modelled from the spec: the single process-wide instance owned by the
Lifecycle Controller (spec sections 3 and 9): lifecycle state, the
optionally-owned RenderDevice and SimulationWorld, whether a first
successful update has happened (spec section 4.1: render is a no-op before
the first successful update), and a counter of issued draws (the
observable effect of `wgpu_render`). -/
structure CoreState where
  lifecycle : LifecycleState
  device : Option RenderDevice
  world : Option SimulationWorld
  hasUpdated : Bool
  drawCount : Nat
deriving DecidableEq

/-- Modelled from the spec: the fixed internal integration sub-step
(Glossary "Fixed sub-step"); the concrete interval is the implementer's
choice, modelled as 1/60. -/
def subStep : ℚ := 1 / 60

/-- Modelled from the spec: one fixed sub-step of semi-implicit Euler
integration of a single body under uniform gravity (spec section 4.4:
"Applies gravity as a uniform acceleration to all dynamic bodies"; the
exact integration method is left to the implementer but must be
deterministic). -/
def integrateBody (g h : ℚ) (b : Body) : Body :=
  let vy := b.velY + g * h
  { posX := b.posX + b.velX * h
    posY := b.posY + vy * h
    velX := b.velX
    velY := vy }

/-- Modelled from the spec: `SimulationWorld.step(effective_dt)` of spec
section 4.4 — accumulate `effective_dt`, consume whole fixed sub-steps,
carry the remainder; each consumed sub-step integrates every body under
gravity.  The implementation is absent from src/. -/
def SimulationWorld.step (w : SimulationWorld) (effective_dt : ℚ) : SimulationWorld :=
  let acc := w.accumulator + effective_dt
  let n : Nat := ((acc / subStep).floor).toNat
  { w with
    bodies := (fun bs => bs.map (integrateBody w.gravityY subStep))^[n] w.bodies
    accumulator := acc - (n : ℚ) * subStep }

/-- Modelled from the spec: the default SimulationWorld created by a
successful init (spec section 2: "an empty/default Simulation World"). -/
def defaultWorld : SimulationWorld :=
  { bodies := [], gravityY := 0, timeScale := 1, paused := false, accumulator := 0 }

/-- Modelled from the spec: `wgpu_init(surface_handle, width, height)` of
spec sections 4.1 and 7.  The implementation is absent from src/ (the
header only declares it).  Validation order: the call is rejected in the
Ready state (init is valid from Uninitialized, and again after Terminated
— spec section 4.1: "All calls other than init after Terminated are safe
no-ops" together with the section 8 re-init property); a null handle,
non-positive width or height, or a device-creation failure releases
partial resources, returns false and leaves the state untouched.  Whether
the GPU backend can be acquired is external to the core and is passed as
the `deviceOk` parameter. -/
def wgpu_init (s : CoreState) (surface_handle : Option Nat) (width height : Int)
    (deviceOk : Bool) : CoreState × Bool :=
  if s.lifecycle = .Ready then (s, false)
  else if surface_handle = none then (s, false)
  else if width ≤ 0 then (s, false)
  else if height ≤ 0 then (s, false)
  else if deviceOk = false then (s, false)
  else
    ({ lifecycle := .Ready
       device := some { width := width, height := height }
       world := some defaultWorld
       hasUpdated := false
       drawCount := s.drawCount }, true)

/-- Modelled from the spec: `wgpu_update(delta_time)` of spec section 4.1 —
valid only in Ready; if paused, advances nothing but still consumes the
call; `delta_time < 0` is clamped to 0; forwards to
`SimulationWorld.step(delta_time * time_scale)`.  The implementation is
absent from src/. -/
def wgpu_update (s : CoreState) (delta_time : ℚ) : CoreState :=
  if s.lifecycle = .Ready then
    match s.world with
    | some w =>
      if w.paused then { s with hasUpdated := true }
      else
        let dt := if delta_time < 0 then 0 else delta_time
        { s with world := some (w.step (dt * w.timeScale)), hasUpdated := true }
    | none => s
  else s

/-- Modelled from the spec: `wgpu_render()` of spec section 4.1 — valid only
in Ready; a no-op (not fatal) before the first successful update;
otherwise draws the current snapshot, observed here as the draw
counter.  The implementation is absent from src/. -/
def wgpu_render (s : CoreState) : CoreState :=
  if s.lifecycle = .Ready ∧ s.hasUpdated then { s with drawCount := s.drawCount + 1 }
  else s

/-- Modelled from the spec: `wgpu_resize(width, height)` of spec section 4.1
— valid in Ready; non-positive width or height is rejected silently
(no-op); otherwise reconfigures the RenderDevice's presentation target and
does not touch the SimulationWorld.  The implementation is absent from
src/. -/
def wgpu_resize (s : CoreState) (width height : Int) : CoreState :=
  if s.lifecycle = .Ready then
    if width ≤ 0 ∨ height ≤ 0 then s
    else
      match s.device with
      | some _ => { s with device := some { width := width, height := height } }
      | none => s
  else s

/-- Modelled from the spec: `wgpu_shutdown()` of spec sections 4.1 and 7 —
valid from any state, never fails, releases RenderDevice then
SimulationWorld and always reaches Terminated; idempotent.  The
implementation is absent from src/. -/
def wgpu_shutdown (s : CoreState) : CoreState :=
  { lifecycle := .Terminated
    device := none
    world := none
    hasUpdated := false
    drawCount := s.drawCount }

/-- Modelled from the spec: the shared gating of the simulation controls —
each mutates the SimulationWorld when one is owned and is a safe no-op
otherwise (spec section 7: calls on a Terminated or Uninitialized instance
are no-ops, not crashes). -/
def withWorld (s : CoreState) (f : SimulationWorld → SimulationWorld) : CoreState :=
  match s.world with
  | some w => { s with world := some (f w) }
  | none => s

/-- Modelled from the spec: `set_gravity(y)` of spec section 4.4, a pure
parameter mutator.  The implementation is absent from src/. -/
def physics_core_set_gravity (s : CoreState) (y : ℚ) : CoreState :=
  withWorld s (fun w => { w with gravityY := y })

/-- Modelled from the spec: `set_time_scale(scale)` of spec section 4.4
(negative scale clamped to 0).  The implementation is absent from src/. -/
def physics_core_set_time_scale (s : CoreState) (scale : ℚ) : CoreState :=
  withWorld s (fun w => { w with timeScale := if scale < 0 then 0 else scale })

/-- Modelled from the spec: `set_paused(flag)` of spec section 4.4.  The
implementation is absent from src/. -/
def physics_core_set_paused (s : CoreState) (paused : Bool) : CoreState :=
  withWorld s (fun w => { w with paused := paused })

/-- Modelled from the spec: `SimulationWorld.reset()` of spec section 4.4 —
clears all bodies and the accumulated sub-step remainder; gravity and
time_scale are preserved.  The implementation is absent from src/. -/
def SimulationWorld.reset (w : SimulationWorld) : SimulationWorld :=
  { w with bodies := [], accumulator := 0 }

/-- Modelled from the spec: `reset_simulation()` of spec sections 4.4 and 6.
The implementation is absent from src/. -/
def physics_core_reset_simulation (s : CoreState) : CoreState :=
  withWorld s SimulationWorld.reset

/-- Modelled from the spec: the commands the Input Router translates events
into (spec section 4.5, examples: spawn a body, toggle pause). -/
inductive SimulationCommand where
  | spawnBody (x y : ℚ)
  | togglePause
deriving DecidableEq

/-- Modelled from the spec: the Input Router's pure translation of a pointer
event; unknown event kinds are ignored (spec section 4.5).  Event type 0
is PointerDown, which spawns a body at the pointer position. -/
def translatePointer (event_type : Int) (x y : ℚ) (_button : Int) :
    Option SimulationCommand :=
  if event_type = 0 then some (.spawnBody x y) else none

/-- Modelled from the spec: the Input Router's pure translation of a key
event; unknown event kinds are ignored (spec section 4.5).  Key-down
(event type 0) of the pause key toggles pause. -/
def translateKey (event_type : Int) (key_code : Int) : Option SimulationCommand :=
  if event_type = 0 ∧ key_code = 32 then some .togglePause else none

/-- Modelled from the spec: `apply_input(command)` of spec section 4.4 —
mutates bodies (or the pause flag) per the translated command.  The
implementation is absent from src/. -/
def SimulationWorld.apply_input (w : SimulationWorld) (c : SimulationCommand) :
    SimulationWorld :=
  match c with
  | .spawnBody x y =>
      { w with bodies := w.bodies ++ [{ posX := x, posY := y, velX := 0, velY := 0 }] }
  | .togglePause => { w with paused := !w.paused }

/-- Modelled from the spec: routing a translated command into the world; an
ignored event or a missing world is a safe no-op. -/
def applyCommand (s : CoreState) (c : Option SimulationCommand) : CoreState :=
  match c with
  | some cmd => withWorld s (fun w => w.apply_input cmd)
  | none => s

/-- Modelled from the spec: `on_pointer_event` of spec section 6.  The
implementation is absent from src/. -/
def physics_core_on_pointer_event (s : CoreState) (event_type : Int) (x y : ℚ)
    (button : Int) : CoreState :=
  applyCommand s (translatePointer event_type x y button)

/-- Modelled from the spec: `on_key_event` of spec section 6.  The
implementation is absent from src/. -/
def physics_core_on_key_event (s : CoreState) (event_type : Int) (key_code : Int) :
    CoreState :=
  applyCommand s (translateKey event_type key_code)

/-- Folding a host-supplied sequence of frame deltas through `wgpu_update`. -/
def runUpdates (s : CoreState) (dts : List ℚ) : CoreState :=
  dts.foldl wgpu_update s

/-- Folding a sequence of effective deltas through `SimulationWorld.step`. -/
def runSteps (w : SimulationWorld) (dts : List ℚ) : SimulationWorld :=
  dts.foldl SimulationWorld.step w

/-- The positions of the bodies of a world, in creation order. -/
def bodyPositions (w : SimulationWorld) : List (ℚ × ℚ) :=
  w.bodies.map (fun b => (b.posX, b.posY))

/-- The observable body positions of the instance, when a world is owned. -/
def statePositions (s : CoreState) : Option (List (ℚ × ℚ)) :=
  s.world.map bodyPositions

/-- The observable presentation-target dimensions, when a device is owned. -/
def deviceDims (s : CoreState) : Option (Int × Int) :=
  s.device.map (fun d => (d.width, d.height))

/-- The C return types occurring in physics_core.h. -/
inductive CRetType where
  | cvoid
  | cbool
  | cconstCharPtr
deriving DecidableEq

/-- A function declaration of the public header: its name and C return
type. -/
structure CDecl where
  name : String
  ret : CRetType
deriving DecidableEq

/-- The function declarations of src/physics_core/include/physics_core.h,
lines 7 to 30, in source order, with their declared C return types. -/
def headerDecls : List CDecl :=
  [ { name := "physics_core_get_info", ret := .cconstCharPtr }
  , { name := "physics_core_free_string", ret := .cvoid }
  , { name := "wgpu_init", ret := .cbool }
  , { name := "wgpu_update", ret := .cvoid }
  , { name := "wgpu_render", ret := .cvoid }
  , { name := "wgpu_resize", ret := .cvoid }
  , { name := "wgpu_shutdown", ret := .cvoid }
  , { name := "physics_core_set_gravity", ret := .cvoid }
  , { name := "physics_core_set_time_scale", ret := .cvoid }
  , { name := "physics_core_set_paused", ret := .cvoid }
  , { name := "physics_core_reset_simulation", ret := .cvoid }
  , { name := "physics_core_on_pointer_event", ret := .cvoid }
  , { name := "physics_core_on_key_event", ret := .cvoid }
  ]

/-- The game-loop lifecycle and simulation-control/input declarations of the
header (lines 17 to 29): everything except the get_info/free_string string
marshaling pair. -/
def gameLoopAndSimDecls : List CDecl :=
  headerDecls.filter
    (fun d => d.name ≠ "physics_core_get_info" ∧ d.name ≠ "physics_core_free_string")

/-- A concrete body used to instantiate the theorems below. -/
def sampleBody : Body := { posX := 1, posY := 2, velX := 0, velY := 0 }

/-- A concrete paused world. -/
def pausedWorld : SimulationWorld :=
  { bodies := [sampleBody], gravityY := -(98 / 10), timeScale := 1, paused := true
    accumulator := 0 }

/-- A concrete Ready instance whose world is paused and which has not yet
seen a successful update. -/
def pausedState : CoreState :=
  { lifecycle := .Ready, device := some { width := 800, height := 600 }
    world := some pausedWorld, hasUpdated := false, drawCount := 0 }

/-- The paused world with the pause flag cleared. -/
def liveWorld : SimulationWorld := { pausedWorld with paused := false }

/-- A concrete Ready instance whose world is running. -/
def liveState : CoreState := { pausedState with world := some liveWorld }

/-- A concrete instance that has never been initialized. -/
def uninitState : CoreState :=
  { lifecycle := .Uninitialized, device := none, world := none
    hasUpdated := false, drawCount := 0 }

/-- On failure the modelled init returns the input state unchanged with
false. -/
theorem wgpu_init_failure (s : CoreState) (surf : Option Nat) (width height : Int)
    (deviceOk : Bool) (hne : s.lifecycle ≠ .Ready)
    (hbad : surf = none ∨ width ≤ 0 ∨ height ≤ 0 ∨ deviceOk = false) :
    wgpu_init s surf width height deviceOk = (s, false) := by
  unfold wgpu_init
  rw [if_neg hne]
  split_ifs with h1 h2 h3 h4
  · rfl
  · rfl
  · rfl
  · rfl
  · rcases hbad with hb | hb | hb | hb
    · exact absurd hb h1
    · exact absurd hb h2
    · exact absurd hb h3
    · exact absurd hb h4

/-- The modelled init either fails leaving the state unchanged, or succeeds
with the fully constructed Ready state. -/
theorem wgpu_init_cases (s : CoreState) (surf : Option Nat) (width height : Int)
    (deviceOk : Bool) :
    wgpu_init s surf width height deviceOk = (s, false) ∨
    wgpu_init s surf width height deviceOk =
      ({ lifecycle := .Ready, device := some { width := width, height := height }
         world := some defaultWorld, hasUpdated := false
         drawCount := s.drawCount }, true) := by
  unfold wgpu_init
  split_ifs <;> first | exact Or.inl rfl | exact Or.inr rfl

/-- With a non-null handle, positive dimensions and an acquirable backend,
the modelled init succeeds from any non-Ready state. -/
theorem wgpu_init_success (s : CoreState) (n : Nat) (width height : Int)
    (hne : s.lifecycle ≠ .Ready) (hw : 0 < width) (hh : 0 < height) :
    wgpu_init s (some n) width height true =
      ({ lifecycle := .Ready, device := some { width := width, height := height }
         world := some defaultWorld, hasUpdated := false
         drawCount := s.drawCount }, true) := by
  unfold wgpu_init
  rw [if_neg hne, if_neg (by simp), if_neg (not_le.mpr hw), if_neg (not_le.mpr hh),
    if_neg (by simp)]

/-- Claim C4: the modelled shutdown never fails (it is a total function),
reaches Terminated from any state, is idempotent, and after it every
public call other than init is a safe no-op returning the Terminated state
unchanged. -/
theorem shutdown_contract (s : CoreState) :
    (wgpu_shutdown s).lifecycle = .Terminated ∧
    wgpu_shutdown (wgpu_shutdown s) = wgpu_shutdown s ∧
    (∀ dt, wgpu_update (wgpu_shutdown s) dt = wgpu_shutdown s) ∧
    wgpu_render (wgpu_shutdown s) = wgpu_shutdown s ∧
    (∀ width height, wgpu_resize (wgpu_shutdown s) width height = wgpu_shutdown s) ∧
    (∀ y, physics_core_set_gravity (wgpu_shutdown s) y = wgpu_shutdown s) ∧
    (∀ c, physics_core_set_time_scale (wgpu_shutdown s) c = wgpu_shutdown s) ∧
    (∀ p, physics_core_set_paused (wgpu_shutdown s) p = wgpu_shutdown s) ∧
    physics_core_reset_simulation (wgpu_shutdown s) = wgpu_shutdown s ∧
    (∀ et x y b, physics_core_on_pointer_event (wgpu_shutdown s) et x y b =
      wgpu_shutdown s) ∧
    (∀ et kc, physics_core_on_key_event (wgpu_shutdown s) et kc = wgpu_shutdown s) := by
  refine ⟨rfl, rfl, fun dt => rfl, rfl, fun width height => rfl, fun y => rfl,
    fun c => rfl, fun p => rfl, rfl, fun et x y b => ?_, fun et kc => ?_⟩
  · unfold physics_core_on_pointer_event applyCommand
    cases translatePointer et x y b <;> rfl
  · unfold physics_core_on_key_event applyCommand
    cases translateKey et kc <;> rfl

/-- Claim C6: the modelled resize with non-positive width or height is a
silent no-op; in particular the presentation-target dimensions are
unchanged. -/
theorem resize_nonpositive_noop (s : CoreState) (width height : Int)
    (h : width ≤ 0 ∨ height ≤ 0) :
    wgpu_resize s width height = s ∧
    deviceDims (wgpu_resize s width height) = deviceDims s := by
  have hr : wgpu_resize s width height = s := by
    unfold wgpu_resize
    by_cases h1 : s.lifecycle = LifecycleState.Ready
    · rw [if_pos h1, if_pos h]
    · rw [if_neg h1]
  exact ⟨hr, by rw [hr]⟩

/-- Witness for C6 at a concrete Ready state and a zero width. -/
theorem resize_nonpositive_noop_witness :
    wgpu_resize liveState 0 600 = liveState ∧
    deviceDims (wgpu_resize liveState 0 600) = deviceDims liveState :=
  resize_nonpositive_noop liveState 0 600 (Or.inl le_rfl)

/-- Claim C9: the modelled render is a safe no-op — it never draws — both
before any successful init (Uninitialized state) and in any state that has
not yet seen a first successful update. -/
theorem render_noop_before_update (s : CoreState) :
    (s.lifecycle = .Uninitialized → wgpu_render s = s) ∧
    (s.hasUpdated = false → wgpu_render s = s) := by
  constructor
  · intro h
    unfold wgpu_render
    rw [if_neg]
    simp [h]
  · intro h
    unfold wgpu_render
    rw [if_neg]
    simp [h]

/-- Witness for C9 at an uninitialized instance and at a Ready instance that
has not yet updated. -/
theorem render_noop_before_update_witness :
    wgpu_render uninitState = uninitState ∧ wgpu_render pausedState = pausedState :=
  ⟨(render_noop_before_update uninitState).1 rfl,
   (render_noop_before_update pausedState).2 rfl⟩

/-- Claim C10: in the header's game-loop and simulation-control/input
declarations (physics_core.h lines 17 to 29), every function except
wgpu_init is declared to return void, wgpu_init is the only non-void
declaration and it returns bool — so init's bool is the only failure
signal observable on that interface. -/
theorem public_ops_void_except_init :
    (∀ d ∈ gameLoopAndSimDecls, d.name ≠ "wgpu_init" → d.ret = CRetType.cvoid) ∧
    (∀ d ∈ gameLoopAndSimDecls, d.ret ≠ CRetType.cvoid →
      d.name = "wgpu_init" ∧ d.ret = CRetType.cbool) ∧
    CDecl.mk "wgpu_init" CRetType.cbool ∈ gameLoopAndSimDecls := by
  refine ⟨?_, ?_, by decide⟩ <;> decide

/-- Witness for C10 at the wgpu_update declaration. -/
theorem public_ops_void_except_init_witness :
    CDecl.mk "wgpu_update" CRetType.cvoid ∈ gameLoopAndSimDecls ∧
    (CDecl.mk "wgpu_update" CRetType.cvoid).ret = CRetType.cvoid :=
  ⟨by decide, public_ops_void_except_init.1 (CDecl.mk "wgpu_update" CRetType.cvoid)
    (by decide) (by decide)⟩

/-- Claim C1: from Uninitialized, every failing reason (null handle,
non-positive width or height, device-creation failure) makes the modelled
init return false; every failing init leaves the state exactly as it was
(so it stays Uninitialized with no partial state observable) and a
subsequent init with valid parameters succeeds; every successful init
returns true and moves the lifecycle to Ready. -/
theorem init_failure_success_contract (s : CoreState) (surf : Option Nat)
    (width height : Int) (deviceOk : Bool)
    (hs : s.lifecycle = .Uninitialized) :
    ((surf = none ∨ width ≤ 0 ∨ height ≤ 0 ∨ deviceOk = false) →
      (wgpu_init s surf width height deviceOk).2 = false) ∧
    ((wgpu_init s surf width height deviceOk).2 = false →
      (wgpu_init s surf width height deviceOk).1 = s) ∧
    ((wgpu_init s surf width height deviceOk).2 = false →
      ∀ n w h, 0 < w → 0 < h →
        (wgpu_init (wgpu_init s surf width height deviceOk).1 (some n) w h true).2 =
          true) ∧
    ((wgpu_init s surf width height deviceOk).2 = true →
      (wgpu_init s surf width height deviceOk).1.lifecycle = .Ready) := by
  have hne : s.lifecycle ≠ LifecycleState.Ready := by rw [hs]; intro h; cases h
  refine ⟨fun hbad => ?_, fun hf => ?_, fun hf => ?_, fun ht => ?_⟩
  · rw [wgpu_init_failure s surf width height deviceOk hne hbad]
  · rcases wgpu_init_cases s surf width height deviceOk with hc | hc
    · rw [hc]
    · rw [hc] at hf
      simp at hf
  · intro n w h hw hh
    rcases wgpu_init_cases s surf width height deviceOk with hc | hc
    · have h1 : (wgpu_init s surf width height deviceOk).1 = s := by rw [hc]
      rw [h1, wgpu_init_success s n w h hne hw hh]
    · rw [hc] at hf
      simp at hf
  · rcases wgpu_init_cases s surf width height deviceOk with hc | hc
    · rw [hc] at ht
      simp at ht
    · rw [hc]

/-- Witness for C1: from the concrete uninitialized instance, init with a
null surface handle fails and changes nothing. -/
theorem init_failure_success_contract_witness :
    (wgpu_init uninitState none 800 600 true).2 = false ∧
    (wgpu_init uninitState none 800 600 true).1 = uninitState := by
  have h := init_failure_success_contract uninitState none 800 600 true rfl
  exact ⟨h.1 (Or.inl rfl), h.2.1 (h.1 (Or.inl rfl))⟩

/-- While the owned world is paused, one modelled update leaves the owned
world untouched. -/
theorem update_world_paused (s : CoreState) (w : SimulationWorld)
    (hw : s.world = some w) (hp : w.paused = true) (dt : ℚ) :
    (wgpu_update s dt).world = s.world := by
  unfold wgpu_update
  by_cases h : s.lifecycle = LifecycleState.Ready
  · rw [if_pos h, hw]
    simp [hp]
  · rw [if_neg h]

/-- While the owned world is paused, any number of modelled updates leaves
the owned world untouched. -/
theorem runUpdates_world_paused (s : CoreState) (w : SimulationWorld)
    (hw : s.world = some w) (hp : w.paused = true) (dts : List ℚ) :
    (runUpdates s dts).world = s.world := by
  induction dts generalizing s with
  | nil => rfl
  | cons dt rest ih =>
    have h1 : (wgpu_update s dt).world = s.world := update_world_paused s w hw hp dt
    have h2 : (runUpdates (wgpu_update s dt) rest).world = (wgpu_update s dt).world :=
      ih (wgpu_update s dt) (h1.trans hw)
    exact h2.trans h1

/-- Claim C2: once the pause flag is set, any finite sequence of update
calls with non-negative deltas leaves every body position unchanged. -/
theorem update_paused_preserves_positions (s : CoreState) (w : SimulationWorld)
    (hw : s.world = some w) (hp : w.paused = true)
    (dts : List ℚ) (hdts : ∀ dt ∈ dts, 0 ≤ dt) :
    statePositions (runUpdates s dts) = statePositions s := by
  unfold statePositions
  rw [runUpdates_world_paused s w hw hp dts]

/-- Witness for C2: three updates on the concrete paused instance leave the
body positions unchanged. -/
theorem update_paused_preserves_positions_witness :
    statePositions (runUpdates pausedState [1, 1 / 2, 0]) =
      statePositions pausedState :=
  update_paused_preserves_positions pausedState pausedWorld rfl rfl [1, 1 / 2, 0]
    (by
      intro dt hdt
      fin_cases hdt <;> norm_num)

/-- One modelled step depends only on the bodies, the gravity and the
accumulator of the world, and preserves the equality of those fields. -/
theorem step_matches (w₁ w₂ : SimulationWorld) (dt : ℚ)
    (hb : w₁.bodies = w₂.bodies) (hg : w₁.gravityY = w₂.gravityY)
    (ha : w₁.accumulator = w₂.accumulator) :
    (w₁.step dt).bodies = (w₂.step dt).bodies ∧
    (w₁.step dt).gravityY = (w₂.step dt).gravityY ∧
    (w₁.step dt).accumulator = (w₂.step dt).accumulator := by
  unfold SimulationWorld.step
  simp [hb, hg, ha]

/-- Folding the same delta sequence through the modelled step preserves the
equality of bodies, gravity and accumulator between two runs. -/
theorem runSteps_matches (w₁ w₂ : SimulationWorld) (dts : List ℚ)
    (hb : w₁.bodies = w₂.bodies) (hg : w₁.gravityY = w₂.gravityY)
    (ha : w₁.accumulator = w₂.accumulator) :
    (runSteps w₁ dts).bodies = (runSteps w₂ dts).bodies ∧
    (runSteps w₁ dts).gravityY = (runSteps w₂ dts).gravityY ∧
    (runSteps w₁ dts).accumulator = (runSteps w₂ dts).accumulator := by
  induction dts generalizing w₁ w₂ with
  | nil => exact ⟨hb, hg, ha⟩
  | cons dt rest ih =>
    have h := step_matches w₁ w₂ dt hb hg ha
    exact ih (w₁.step dt) (w₂.step dt) h.1 h.2.1 h.2.2

/-- Claim C3: the modelled step integration is deterministic — two runs
that start from identical body states, gravity, time_scale and sub-step
accumulator and consume the same finite sequence of effective deltas end
with identical (exactly equal) body states and accumulators. -/
theorem step_deterministic (w₁ w₂ : SimulationWorld) (dts : List ℚ)
    (hb : w₁.bodies = w₂.bodies) (hg : w₁.gravityY = w₂.gravityY)
    (ht : w₁.timeScale = w₂.timeScale) (ha : w₁.accumulator = w₂.accumulator) :
    (runSteps w₁ dts).bodies = (runSteps w₂ dts).bodies ∧
    (runSteps w₁ dts).accumulator = (runSteps w₂ dts).accumulator :=
  ⟨(runSteps_matches w₁ w₂ dts hb hg ha).1, (runSteps_matches w₁ w₂ dts hb hg ha).2.2⟩

/-- Witness for C3 on two concrete worlds that agree on bodies, gravity,
time scale and accumulator but differ on the pause flag. -/
theorem step_deterministic_witness :
    (runSteps pausedWorld [1, 1 / 3]).bodies = (runSteps liveWorld [1, 1 / 3]).bodies ∧
    (runSteps pausedWorld [1, 1 / 3]).accumulator =
      (runSteps liveWorld [1, 1 / 3]).accumulator :=
  step_deterministic pausedWorld liveWorld [1, 1 / 3] rfl rfl rfl rfl

/-- Claim C5: the modelled update clamps a negative delta to 0 — update
with a negative delta is indistinguishable from update(0) in every state —
and in the Ready unpaused state it forwards exactly
step(delta_time * time_scale). -/
theorem update_clamp_and_forward (s : CoreState) (dt : ℚ) :
    (dt < 0 → wgpu_update s dt = wgpu_update s 0) ∧
    (∀ w, s.lifecycle = .Ready → s.world = some w → w.paused = false → 0 ≤ dt →
      wgpu_update s dt =
        { s with world := some (w.step (dt * w.timeScale)), hasUpdated := true }) := by
  constructor
  · intro hdt
    unfold wgpu_update
    by_cases h : s.lifecycle = LifecycleState.Ready
    · rw [if_pos h, if_pos h]
      cases hw : s.world with
      | none => rfl
      | some w =>
        by_cases hp : w.paused = true
        · simp [hp]
        · simp only [hp]
          rw [if_pos hdt, if_neg (lt_irrefl (0 : ℚ))]
    · rw [if_neg h, if_neg h]
  · intro w hsl hw hp hdt
    unfold wgpu_update
    rw [if_pos hsl, hw]
    simp [hp, hdt.not_lt]

/-- Witness for C5: a negative delta behaves as zero on the concrete paused
instance, and a positive delta on the concrete running instance forwards
the scaled delta to step. -/
theorem update_clamp_and_forward_witness :
    wgpu_update pausedState (-1) = wgpu_update pausedState 0 ∧
    wgpu_update liveState 1 =
      { liveState with
          world := some (liveWorld.step (1 * liveWorld.timeScale))
          hasUpdated := true } :=
  ⟨(update_clamp_and_forward pausedState (-1)).1 (by norm_num),
   (update_clamp_and_forward liveState 1).2 liveWorld rfl rfl rfl (by norm_num)⟩

/-- Claim C7: on any instance that owns a world, the modelled reset clears
the bodies and the accumulated sub-step remainder while leaving gravity,
time_scale (and the pause flag) exactly as they were immediately before
the call. -/
theorem reset_preserves_parameters (s : CoreState) (w : SimulationWorld)
    (hw : s.world = some w) :
    (physics_core_reset_simulation s).world =
      some { bodies := [], gravityY := w.gravityY, timeScale := w.timeScale
             paused := w.paused, accumulator := 0 } := by
  unfold physics_core_reset_simulation withWorld
  rw [hw]
  rfl

/-- Witness for C7 on the concrete running instance. -/
theorem reset_preserves_parameters_witness :
    (physics_core_reset_simulation liveState).world =
      some { bodies := [], gravityY := liveWorld.gravityY
             timeScale := liveWorld.timeScale, paused := liveWorld.paused
             accumulator := 0 } :=
  reset_preserves_parameters liveState liveWorld rfl

/-- Claim C8: from Uninitialized, a successful init followed immediately by
shutdown leaves the instance in a state (Terminated) from which a second
init with different valid dimensions succeeds again. -/
theorem reinit_after_shutdown (s : CoreState) (n m : Nat) (w1 h1 w2 h2 : Int)
    (hs : s.lifecycle = .Uninitialized)
    (hw1 : 0 < w1) (hh1 : 0 < h1) (hw2 : 0 < w2) (hh2 : 0 < h2) :
    (wgpu_init s (some n) w1 h1 true).2 = true ∧
    (wgpu_init (wgpu_shutdown (wgpu_init s (some n) w1 h1 true).1)
        (some m) w2 h2 true).2 = true := by
  have hne : s.lifecycle ≠ LifecycleState.Ready := by rw [hs]; intro h; cases h
  rw [wgpu_init_success s n w1 h1 hne hw1 hh1]
  refine ⟨rfl, ?_⟩
  rw [wgpu_init_success _ m w2 h2 (by intro h; cases h) hw2 hh2]

/-- Witness for C8: a full init(800x600), shutdown, init(1024x768) cycle
from the concrete uninitialized instance succeeds twice. -/
theorem reinit_after_shutdown_witness :
    (wgpu_init uninitState (some 1) 800 600 true).2 = true ∧
    (wgpu_init (wgpu_shutdown (wgpu_init uninitState (some 1) 800 600 true).1)
        (some 2) 1024 768 true).2 = true :=
  reinit_after_shutdown uninitState 1 2 800 600 1024 768 rfl (by decide) (by decide)
    (by decide) (by decide)

end PhysicsFX
